import Mathlib

/-!
Shallow embedding of the generic ngrx CRUD state helpers of this
repository: the action-group factories, reducer factories and effect
pipelines found in `public/assets/ngrx_helper_enhanced.ts`,
`public/assets/ngrx_generic_state_4.ts` and
`public/assets/ngrx_helper_improved.ts`.

Conventions: TS `null`/`undefined` become `Option.none`; JS objects
become structures; the dynamic action object becomes `DynAction`, a
`type` string plus every payload field the helpers destructure; the
rxjs operators used by the effect factories (`switchMap`, `exhaustMap`)
are embedded as explicit event-trace machines.
-/

namespace NgrxSpec

/-- Action type string produced by the factories, a template literal
of shape `[feature]<suffix>` (for example `[User] Load`). -/
def mkType (feature suffix : String) : String := "[" ++ feature ++ suffix

def sufLoad : String := "] Load"

def sufLoadSuccess : String := "] Load Success"

def sufLoadFailure : String := "] Load Failure"

def sufAdd : String := "] Add"

def sufAddSuccess : String := "] Add Success"

def sufAddFailure : String := "] Add Failure"

def sufUpdate : String := "] Update"

def sufUpdateSuccess : String := "] Update Success"

def sufUpdateFailure : String := "] Update Failure"

def sufDelete : String := "] Delete"

def sufDeleteSuccess : String := "] Delete Success"

def sufDeleteFailure : String := "] Delete Failure"

def sufReset : String := "] Reset"

/-- The thirteen per-operation suffixes a full CRUD group uses. -/
def actionSuffixes : List String :=
  [sufLoad, sufLoadSuccess, sufLoadFailure,
   sufAdd, sufAddSuccess, sufAddFailure,
   sufUpdate, sufUpdateSuccess, sufUpdateFailure,
   sufDelete, sufDeleteSuccess, sufDeleteFailure,
   sufReset]

/-- The action type names generated for one feature by the full CRUD
action-group factory (`createCrudActions` merging the load, add, update
and delete factories, each of which also contributes `reset`). -/
def groupTypes (feature : String) : List String :=
  actionSuffixes.map (mkType feature)

/-- An ngrx action as the dynamically typed helpers see it: its `type`
tag plus the payload fields the reducers and effects destructure.  A
field the dispatched action does not carry is `none` (JS `undefined`).
`T` is the data payload, `It` the item payload, `Id` the identifier,
`P` the request payload and `Q` the query-params type. -/
structure DynAction (T It Id P Q : Type) where
  type : String
  params : Option Q
  forceReload : Option Bool
  data : Option T
  item : Option It
  id : Option Id
  payload : Option P
  error : Option String
  message : Option String

/-- An action carrying only its `type` tag. -/
def bareAction {T It Id P Q : Type} (t : String) : DynAction T It Id P Q :=
  ⟨t, none, none, none, none, none, none, none, none⟩

/-- `actions.load` with optional params and force-reload flag. -/
def mkLoad {T It Id P Q : Type} (f : String) (prm : Option Q) (fr : Option Bool) :
    DynAction T It Id P Q :=
  ⟨mkType f sufLoad, prm, fr, none, none, none, none, none, none⟩

/-- `actions.loadSuccess` carrying the loaded data and an optional message. -/
def mkLoadSuccess {T It Id P Q : Type} (f : String) (d : T) (msg : Option String) :
    DynAction T It Id P Q :=
  ⟨mkType f sufLoadSuccess, none, none, some d, none, none, none, none, msg⟩

/-- `actions.loadFailure` carrying the error message. -/
def mkLoadFailure {T It Id P Q : Type} (f : String) (e : String) :
    DynAction T It Id P Q :=
  ⟨mkType f sufLoadFailure, none, none, none, none, none, none, some e, none⟩

/-- `actions.add` carrying the request payload. -/
def mkAdd {T It Id P Q : Type} (f : String) (p : P) :
    DynAction T It Id P Q :=
  ⟨mkType f sufAdd, none, none, none, none, none, some p, none, none⟩

/-- `actions.addSuccess` carrying the created item and an optional message. -/
def mkAddSuccess {T It Id P Q : Type} (f : String) (it : It) (msg : Option String) :
    DynAction T It Id P Q :=
  ⟨mkType f sufAddSuccess, none, none, none, some it, none, none, none, msg⟩

/-- `actions.addFailure` carrying the error message. -/
def mkAddFailure {T It Id P Q : Type} (f : String) (e : String) :
    DynAction T It Id P Q :=
  ⟨mkType f sufAddFailure, none, none, none, none, none, none, some e, none⟩

/-- `actions.update` carrying the identifier and the request payload. -/
def mkUpdate {T It Id P Q : Type} (f : String) (i : Id) (p : P) :
    DynAction T It Id P Q :=
  ⟨mkType f sufUpdate, none, none, none, none, some i, some p, none, none⟩

/-- `actions.updateSuccess` carrying the updated item. -/
def mkUpdateSuccess {T It Id P Q : Type} (f : String) (it : It) (msg : Option String) :
    DynAction T It Id P Q :=
  ⟨mkType f sufUpdateSuccess, none, none, none, some it, none, none, none, msg⟩

/-- `actions.updateFailure` carrying the error message. -/
def mkUpdateFailure {T It Id P Q : Type} (f : String) (e : String) :
    DynAction T It Id P Q :=
  ⟨mkType f sufUpdateFailure, none, none, none, none, none, none, some e, none⟩

/-- `actions.delete` carrying the identifier. -/
def mkDelete {T It Id P Q : Type} (f : String) (i : Id) :
    DynAction T It Id P Q :=
  ⟨mkType f sufDelete, none, none, none, none, some i, none, none, none⟩

/-- `actions.deleteSuccess` carrying the identifier back. -/
def mkDeleteSuccess {T It Id P Q : Type} (f : String) (i : Id) (msg : Option String) :
    DynAction T It Id P Q :=
  ⟨mkType f sufDeleteSuccess, none, none, none, none, some i, none, none, msg⟩

/-- `actions.deleteFailure` carrying the error message. -/
def mkDeleteFailure {T It Id P Q : Type} (f : String) (e : String) :
    DynAction T It Id P Q :=
  ⟨mkType f sufDeleteFailure, none, none, none, none, none, none, some e, none⟩

/-- `actions.reset`, payload-free. -/
def mkReset {T It Id P Q : Type} (f : String) :
    DynAction T It Id P Q :=
  ⟨mkType f sufReset, none, none, none, none, none, none, none, none⟩

/-- Run a handler list the way `createReducer` does: every registered
`on` whose action type matches fires, in registration order; an action
matching no handler leaves the state untouched. -/
def runHandlers {σ T It Id P Q : Type}
    (hs : List (String × (σ → DynAction T It Id P Q → σ)))
    (s : σ) (a : DynAction T It Id P Q) : σ :=
  hs.foldl (fun st h => if h.1 = a.type then h.2 st a else st) s

/-- A JS error value as the effect helpers consume it: only `message`
matters.  `none` models an absent or undefined message. -/
structure JsError where
  message : Option String

/-- JS `a || b` on an optional string: `undefined` and the empty string
are falsy and fall through to the default. -/
def jsOr (s : Option String) (d : String) : String :=
  match s with
  | none => d
  | some v => if v = "" then d else v

/-! ## `ngrx_helper_enhanced.ts`, keyed reducer and effects -/

namespace Enh

/-- `DefaultState<T>` of the enhanced (and improved) helper: payload,
error and one busy flag per operation kind. -/
structure DefaultState (T : Type) where
  data : Option T
  error : Option String
  isLoading : Bool
  isAdding : Bool
  isUpdating : Bool
  isDeleting : Bool
deriving DecidableEq

/-- `createDefaultState(data = null)`: all flags false, no error. -/
def createDefaultState {T : Type} (data : Option T) : DefaultState T :=
  ⟨data, none, false, false, false, false⟩

/-- A composite feature state: the resource sub-slice selected by the
config's `stateKey` (modelled as the field `slice`) plus the remaining
fields of the state (collapsed into `other`). -/
structure KState (T O : Type) where
  slice : DefaultState T
  other : O
deriving DecidableEq

/-- A `Partial` of `KState`: each field is present in the patch or not. -/
structure KPatch (T O : Type) where
  slice : Option (DefaultState T)
  other : Option O

/-- JS shallow object spread of a base object then a patch: a field
present in the patch replaces the base field wholesale. -/
def applyPatch {T O : Type} (s : KState T O) (p : KPatch T O) : KState T O :=
  ⟨p.slice.getD s.slice, p.other.getD s.other⟩

/-- `GenericReducerConfig`: which action creators the consumed group
carries, plus the optional post-success merge callbacks.  Callbacks
receive the pre-transition state and the destructured (possibly absent)
action field, and return a root-level partial patch. -/
structure Config (T It Id O : Type) where
  hasLoad : Bool
  hasAdd : Bool
  hasUpdate : Bool
  hasDelete : Bool
  hasReset : Bool
  onAddSuccess : Option (KState T O → Option It → KPatch T O)
  onUpdateSuccess : Option (KState T O → Option It → KPatch T O)
  onDeleteSuccess : Option (KState T O → Option Id → KPatch T O)

/-- `createDefaultReducerHandlers`: per present operation the intent,
success and failure handlers over the sub-slice, then the reset handler,
in source push order. -/
def createDefaultReducerHandlers {T It Id P Q O : Type} (f : String) (cfg : Config T It Id O) :
    List (String × (KState T O → DynAction T It Id P Q → KState T O)) :=
  (if cfg.hasLoad then
    [(mkType f sufLoad, fun s _ =>
        { s with slice := { s.slice with isLoading := true, error := none } }),
     (mkType f sufLoadSuccess, fun s a =>
        { s with slice := { s.slice with data := a.data, isLoading := false, error := none } }),
     (mkType f sufLoadFailure, fun s a =>
        { s with slice := { s.slice with isLoading := false, error := a.error } })]
   else []) ++
  (if cfg.hasAdd then
    [(mkType f sufAdd, fun s _ =>
        { s with slice := { s.slice with isAdding := true, error := none } }),
     (mkType f sufAddSuccess, fun s a =>
        let base : KState T O := { s with slice := { s.slice with isAdding := false, error := none } }
        match cfg.onAddSuccess with
        | none => base
        | some cb => applyPatch base (cb s a.item)),
     (mkType f sufAddFailure, fun s a =>
        { s with slice := { s.slice with isAdding := false, error := a.error } })]
   else []) ++
  (if cfg.hasUpdate then
    [(mkType f sufUpdate, fun s _ =>
        { s with slice := { s.slice with isUpdating := true, error := none } }),
     (mkType f sufUpdateSuccess, fun s a =>
        let base : KState T O := { s with slice := { s.slice with isUpdating := false, error := none } }
        match cfg.onUpdateSuccess with
        | none => base
        | some cb => applyPatch base (cb s a.item)),
     (mkType f sufUpdateFailure, fun s a =>
        { s with slice := { s.slice with isUpdating := false, error := a.error } })]
   else []) ++
  (if cfg.hasDelete then
    [(mkType f sufDelete, fun s _ =>
        { s with slice := { s.slice with isDeleting := true, error := none } }),
     (mkType f sufDeleteSuccess, fun s a =>
        let base : KState T O := { s with slice := { s.slice with isDeleting := false, error := none } }
        match cfg.onDeleteSuccess with
        | none => base
        | some cb => applyPatch base (cb s a.id)),
     (mkType f sufDeleteFailure, fun s a =>
        { s with slice := { s.slice with isDeleting := false, error := a.error } })]
   else []) ++
  (if cfg.hasReset then
    [(mkType f sufReset, fun s _ => { s with slice := createDefaultState none })]
   else [])

/-- The reducer built from the default handler list. -/
def reduce {T It Id P Q O : Type} (f : String) (cfg : Config T It Id O)
    (s : KState T O) (a : DynAction T It Id P Q) : KState T O :=
  runHandlers (@createDefaultReducerHandlers T It Id P Q O f cfg) s a

/-- The action types the handler list registers for this config. -/
def generatedTypes {T It Id O : Type} (f : String) (cfg : Config T It Id O) : List String :=
  (if cfg.hasLoad then [mkType f sufLoad, mkType f sufLoadSuccess, mkType f sufLoadFailure] else []) ++
  (if cfg.hasAdd then [mkType f sufAdd, mkType f sufAddSuccess, mkType f sufAddFailure] else []) ++
  (if cfg.hasUpdate then [mkType f sufUpdate, mkType f sufUpdateSuccess, mkType f sufUpdateFailure] else []) ++
  (if cfg.hasDelete then [mkType f sufDelete, mkType f sufDeleteSuccess, mkType f sufDeleteFailure] else []) ++
  (if cfg.hasReset then [mkType f sufReset] else [])

/-- Decision of `createLoadEffect` (store-and-selector variant) on an
incoming load intent. -/
inductive LoadDecision (Q : Type) where
  | skip
  | invoke (params : Option Q)
deriving DecidableEq

/-- The guard of the load pipeline: data already present in state and
`forceReload` not true (JS `state?.data !== null && !forceReload`). -/
def loadGuard {T : Type} (stateData : Option T) (forceReload : Option Bool) : Bool :=
  stateData.isSome && !(forceReload.getD false)

/-- What the load pipeline does with one intent given the latest state:
return `EMPTY` (skip) when the guard holds, else invoke the service. -/
def loadEffectStep {T Q : Type} (stateData : Option T) (prm : Option Q)
    (fr : Option Bool) : LoadDecision Q :=
  if loadGuard stateData fr then LoadDecision.skip else LoadDecision.invoke prm

/-- The outcome action the enhanced load pipeline maps a settled service
call to: success with the configured message, or failure with the JS
fallback chain `error.message || defaultFailureMessage`. -/
def loadOutcome {T It Id P Q : Type} (f : String) (okMsg failMsg : String)
    (r : Except JsError T) : DynAction T It Id P Q :=
  match r with
  | Except.ok d => mkLoadSuccess f d (some okMsg)
  | Except.error e => mkLoadFailure f (jsOr e.message failMsg)

/-- The single (optional) outcome action produced for one load intent:
none when the guard skips, otherwise the mapped service result. -/
def loadEffectOutput {T It Id P Q : Type} (f : String) (stateData : Option T)
    (prm : Option Q) (fr : Option Bool) (svc : Option Q → Except JsError T)
    (okMsg failMsg : String) : Option (DynAction T It Id P Q) :=
  match loadEffectStep stateData prm fr with
  | LoadDecision.skip => none
  | LoadDecision.invoke p => some (loadOutcome f okMsg failMsg (svc p))

/-- The failure message of the enhanced pipelines with a message config:
`error.message || (messageConfig?.failureMessage || 'Load failed')`. -/
def loadErrMsgE (mcFailure : Option String) (e : JsError) : String :=
  jsOr e.message (jsOr mcFailure "Load failed")

end Enh

/-! ## Flat async state (`AsyncState<T>` / `GenericState<T>`) -/

/-- The flat async resource slice shared by `ngrx_generic_state_4.ts`
(`AsyncState<T>`) and the flat generic reducer (`GenericState<T>`). -/
structure AsyncState (T : Type) where
  data : Option T
  isLoading : Bool
  error : Option String
deriving DecidableEq

/-- `createAsyncState(data = null)`. -/
def createAsyncState {T : Type} (data : Option T) : AsyncState T :=
  ⟨data, false, none⟩

/-! ## Flat `createGenericReducer` (second half of the enhanced file) -/

namespace Gen

/-- A `Partial` of the flat `GenericState`. -/
structure GPatch (T : Type) where
  data : Option (Option T)
  isLoading : Option Bool
  error : Option (Option String)

/-- JS shallow spread of the flat state then a patch. -/
def applyPatch {T : Type} (s : AsyncState T) (p : GPatch T) : AsyncState T :=
  ⟨p.data.getD s.data, p.isLoading.getD s.isLoading, p.error.getD s.error⟩

/-- Config of the flat generic reducer: present action creators, the
initial state, and the post-success merge callbacks. -/
structure Config (T It Id : Type) where
  hasLoad : Bool
  hasAdd : Bool
  hasUpdate : Bool
  hasDelete : Bool
  hasReset : Bool
  initialState : AsyncState T
  onAddSuccess : Option (AsyncState T → Option It → GPatch T)
  onUpdateSuccess : Option (AsyncState T → Option It → GPatch T)
  onDeleteSuccess : Option (AsyncState T → Option Id → GPatch T)

/-- Handler list of the flat `createGenericReducer`: one shared
`isLoading` flag for every operation kind; reset restores the configured
initial state. -/
def createGenericReducer {T It Id P Q : Type} (f : String) (cfg : Config T It Id) :
    List (String × (AsyncState T → DynAction T It Id P Q → AsyncState T)) :=
  (if cfg.hasLoad then
    [(mkType f sufLoad, fun s _ => { s with isLoading := true, error := none }),
     (mkType f sufLoadSuccess, fun s a => { s with data := a.data, isLoading := false, error := none }),
     (mkType f sufLoadFailure, fun s a => { s with isLoading := false, error := a.error })]
   else []) ++
  (if cfg.hasAdd then
    [(mkType f sufAdd, fun s _ => { s with isLoading := true, error := none }),
     (mkType f sufAddSuccess, fun s a =>
        let base : AsyncState T := { s with isLoading := false, error := none }
        match cfg.onAddSuccess with
        | none => base
        | some cb => applyPatch base (cb s a.item)),
     (mkType f sufAddFailure, fun s a => { s with isLoading := false, error := a.error })]
   else []) ++
  (if cfg.hasUpdate then
    [(mkType f sufUpdate, fun s _ => { s with isLoading := true, error := none }),
     (mkType f sufUpdateSuccess, fun s a =>
        let base : AsyncState T := { s with isLoading := false, error := none }
        match cfg.onUpdateSuccess with
        | none => base
        | some cb => applyPatch base (cb s a.item)),
     (mkType f sufUpdateFailure, fun s a => { s with isLoading := false, error := a.error })]
   else []) ++
  (if cfg.hasDelete then
    [(mkType f sufDelete, fun s _ => { s with isLoading := true, error := none }),
     (mkType f sufDeleteSuccess, fun s a =>
        let base : AsyncState T := { s with isLoading := false, error := none }
        match cfg.onDeleteSuccess with
        | none => base
        | some cb => applyPatch base (cb s a.id)),
     (mkType f sufDeleteFailure, fun s a => { s with isLoading := false, error := a.error })]
   else []) ++
  (if cfg.hasReset then
    [(mkType f sufReset, fun _ _ => cfg.initialState)]
   else [])

/-- The flat reducer. -/
def reduce {T It Id P Q : Type} (f : String) (cfg : Config T It Id)
    (s : AsyncState T) (a : DynAction T It Id P Q) : AsyncState T :=
  runHandlers (@createGenericReducer T It Id P Q f cfg) s a

end Gen

/-! ## `ngrx_generic_state_4.ts`, keyed reducer with additional actions -/

namespace S4

/-- A composite feature state: the `AsyncState` sub-slice at the
config's `stateKey` plus the remaining fields (`other`). -/
structure KState (T O : Type) where
  slice : AsyncState T
  other : O
deriving DecidableEq

/-- A `Partial` of `KState`. -/
structure KPatch (T O : Type) where
  slice : Option (AsyncState T)
  other : Option O

/-- JS shallow spread of a base state then a patch. -/
def applyPatch {T O : Type} (s : KState T O) (p : KPatch T O) : KState T O :=
  ⟨p.slice.getD s.slice, p.other.getD s.other⟩

/-- `GenericReducerConfig` of the state_4 variant: present action
creators, the initial composite state, caller-supplied additional
transitions, and the post-success merge callbacks. -/
structure Config (T It Id P Q O : Type) where
  hasLoad : Bool
  hasAdd : Bool
  hasUpdate : Bool
  hasDelete : Bool
  hasReset : Bool
  initialState : KState T O
  additional : List (String × (KState T O → DynAction T It Id P Q → KState T O))
  onAddSuccess : Option (KState T O → Option It → KPatch T O)
  onUpdateSuccess : Option (KState T O → Option It → KPatch T O)
  onDeleteSuccess : Option (KState T O → Option Id → KPatch T O)

/-- The state_4 add-success handler: clear the shared busy flag and the
error on the sub-slice, then spread the callback's patch over the result. -/
def addSuccessHandler {T It Id P Q O : Type} (cfg : Config T It Id P Q O)
    (s : KState T O) (a : DynAction T It Id P Q) : KState T O :=
  let base : KState T O := { s with slice := { s.slice with isLoading := false, error := none } }
  match cfg.onAddSuccess with
  | none => base
  | some cb => applyPatch base (cb s a.item)

/-- The state_4 update-success handler. -/
def updateSuccessHandler {T It Id P Q O : Type} (cfg : Config T It Id P Q O)
    (s : KState T O) (a : DynAction T It Id P Q) : KState T O :=
  let base : KState T O := { s with slice := { s.slice with isLoading := false, error := none } }
  match cfg.onUpdateSuccess with
  | none => base
  | some cb => applyPatch base (cb s a.item)

/-- The state_4 delete-success handler. -/
def deleteSuccessHandler {T It Id P Q O : Type} (cfg : Config T It Id P Q O)
    (s : KState T O) (a : DynAction T It Id P Q) : KState T O :=
  let base : KState T O := { s with slice := { s.slice with isLoading := false, error := none } }
  match cfg.onDeleteSuccess with
  | none => base
  | some cb => applyPatch base (cb s a.id)

/-- Handler list of the state_4 `createGenericReducer`: every operation
kind shares the single `isLoading` flag of the sub-slice; reset returns
the configured initial composite state wholesale; the caller's
additional handlers are appended last. -/
def createGenericReducer {T It Id P Q O : Type} (f : String) (cfg : Config T It Id P Q O) :
    List (String × (KState T O → DynAction T It Id P Q → KState T O)) :=
  (if cfg.hasLoad then
    [(mkType f sufLoad, fun (s : KState T O) (_ : DynAction T It Id P Q) =>
        { s with slice := { s.slice with isLoading := true, error := none } }),
     (mkType f sufLoadSuccess, fun (s : KState T O) (a : DynAction T It Id P Q) =>
        { s with slice := ⟨a.data, false, none⟩ }),
     (mkType f sufLoadFailure, fun (s : KState T O) (a : DynAction T It Id P Q) =>
        { s with slice := { s.slice with isLoading := false, error := a.error } })]
   else []) ++
  (if cfg.hasAdd then
    [(mkType f sufAdd, fun (s : KState T O) (_ : DynAction T It Id P Q) =>
        { s with slice := { s.slice with isLoading := true, error := none } }),
     (mkType f sufAddSuccess, addSuccessHandler cfg),
     (mkType f sufAddFailure, fun (s : KState T O) (a : DynAction T It Id P Q) =>
        { s with slice := { s.slice with isLoading := false, error := a.error } })]
   else []) ++
  (if cfg.hasUpdate then
    [(mkType f sufUpdate, fun (s : KState T O) (_ : DynAction T It Id P Q) =>
        { s with slice := { s.slice with isLoading := true, error := none } }),
     (mkType f sufUpdateSuccess, updateSuccessHandler cfg),
     (mkType f sufUpdateFailure, fun (s : KState T O) (a : DynAction T It Id P Q) =>
        { s with slice := { s.slice with isLoading := false, error := a.error } })]
   else []) ++
  (if cfg.hasDelete then
    [(mkType f sufDelete, fun (s : KState T O) (_ : DynAction T It Id P Q) =>
        { s with slice := { s.slice with isLoading := true, error := none } }),
     (mkType f sufDeleteSuccess, deleteSuccessHandler cfg),
     (mkType f sufDeleteFailure, fun (s : KState T O) (a : DynAction T It Id P Q) =>
        { s with slice := { s.slice with isLoading := false, error := a.error } })]
   else []) ++
  (if cfg.hasReset then
    [(mkType f sufReset, fun (_ : KState T O) (_ : DynAction T It Id P Q) => cfg.initialState)]
   else []) ++
  cfg.additional

/-- The state_4 reducer. -/
def reduce {T It Id P Q O : Type} (f : String) (cfg : Config T It Id P Q O)
    (s : KState T O) (a : DynAction T It Id P Q) : KState T O :=
  runHandlers (createGenericReducer f cfg) s a

/-- The action types the generated (non-additional) handlers register. -/
def generatedTypes {T It Id P Q O : Type} (f : String) (cfg : Config T It Id P Q O) : List String :=
  (if cfg.hasLoad then [mkType f sufLoad, mkType f sufLoadSuccess, mkType f sufLoadFailure] else []) ++
  (if cfg.hasAdd then [mkType f sufAdd, mkType f sufAddSuccess, mkType f sufAddFailure] else []) ++
  (if cfg.hasUpdate then [mkType f sufUpdate, mkType f sufUpdateSuccess, mkType f sufUpdateFailure] else []) ++
  (if cfg.hasDelete then [mkType f sufDelete, mkType f sufDeleteSuccess, mkType f sufDeleteFailure] else []) ++
  (if cfg.hasReset then [mkType f sufReset] else [])

end S4

/-! ## `ngrx_helper_improved.ts`, message resolution -/

namespace Imp

/-- `string | ((data) => string) | undefined` message configuration. -/
def MsgCfg (E : Type) : Type := Option (Sum String (E → String))

/-- `resolveMessage` of the improved helper: an absent (or falsy empty)
static message yields the default; a function is applied to the data;
a non-empty static string is returned as is. -/
def resolveMessage {E : Type} (message : MsgCfg E) (data : E) (defaultMessage : String) : String :=
  match message with
  | none => defaultMessage
  | some (Sum.inl s) => if s = "" then defaultMessage else s
  | some (Sum.inr g) => g data

/-- Error message of the improved load pipeline's catch branch:
`resolveMessage(config?.errorMessage, error, error?.message || 'Load failed')`. -/
def loadErrMsg (cfgErr : MsgCfg JsError) (e : JsError) : String :=
  resolveMessage cfgErr e (jsOr e.message "Load failed")

/-- Error message of the improved add pipeline's catch branch. -/
def addErrMsg (cfgErr : MsgCfg JsError) (e : JsError) : String :=
  resolveMessage cfgErr e (jsOr e.message "Add failed")

/-- Error message of the improved update pipeline's catch branch. -/
def updateErrMsg (cfgErr : MsgCfg JsError) (e : JsError) : String :=
  resolveMessage cfgErr e (jsOr e.message "Update failed")

/-- Error message of the improved delete pipeline's catch branch. -/
def deleteErrMsg (cfgErr : MsgCfg JsError) (e : JsError) : String :=
  resolveMessage cfgErr e (jsOr e.message "Delete failed")

/-- The outcome action the improved load pipeline maps a settled service
call to: every failure is caught and becomes a `loadFailure` action. -/
def loadOutcome {T It Id P Q : Type} (f : String) (cfgErr : MsgCfg JsError)
    (r : Except JsError T) : DynAction T It Id P Q :=
  match r with
  | Except.ok d => mkLoadSuccess f d none
  | Except.error e => mkLoadFailure f (loadErrMsg cfgErr e)

/-- The outcome action of the improved add pipeline. -/
def addOutcome {T It Id P Q : Type} (f : String) (cfgErr : MsgCfg JsError)
    (r : Except JsError It) : DynAction T It Id P Q :=
  match r with
  | Except.ok it => mkAddSuccess f it none
  | Except.error e => mkAddFailure f (addErrMsg cfgErr e)

/-- The outcome action of the improved update pipeline. -/
def updateOutcome {T It Id P Q : Type} (f : String) (cfgErr : MsgCfg JsError)
    (r : Except JsError It) : DynAction T It Id P Q :=
  match r with
  | Except.ok it => mkUpdateSuccess f it none
  | Except.error e => mkUpdateFailure f (updateErrMsg cfgErr e)

/-- The outcome action of the improved delete pipeline (the success
action echoes the intent's identifier). -/
def deleteOutcome {T It Id P Q : Type} (f : String) (cfgErr : MsgCfg JsError)
    (i : Id) (r : Except JsError Unit) : DynAction T It Id P Q :=
  match r with
  | Except.ok _ => mkDeleteSuccess f i none
  | Except.error e => mkDeleteFailure f (deleteErrMsg cfgErr e)

end Imp

/-! ## Effect pipeline event-trace semantics

The effect factories build rxjs pipelines with `switchMap` (load) and
`exhaustMap` (add, update, delete).  We embed the two operators as
explicit machines over a trace of events: an intent action arriving, or
the settling of the inner service call with a given id.  Each step
reports the intents handed to the service (invocations) and the outcome
actions emitted. -/

/-- One event seen by an effect pipeline. -/
inductive EffEvent (P R : Type) where
  | intent (p : P)
  | settle (k : Nat) (r : R)

/-- Pipeline bookkeeping: the next fresh call id and the inner call the
pipeline is currently subscribed to (id plus originating intent). -/
structure PipeState (P : Type) where
  nextId : Nat
  current : Option (Nat × P)
deriving DecidableEq

/-- `exhaustMap` step: an intent while an inner call is in flight is
dropped (the in-flight call is kept, not cancelled); an intent while
idle starts a fresh call; the current call's settling emits exactly one
outcome action (`out`), and a settle event for a call the pipeline is
not subscribed to emits nothing. -/
def exhaustStep {P R A : Type} (out : P → R → A) (s : PipeState P) :
    EffEvent P R → PipeState P × List P × List A
  | EffEvent.intent p =>
    match s.current with
    | none => (⟨s.nextId + 1, some (s.nextId, p)⟩, [p], [])
    | some _ => (s, [], [])
  | EffEvent.settle k r =>
    match s.current with
    | some c => if c.1 = k then (⟨s.nextId, none⟩, [], [out c.2 r]) else (s, [], [])
    | none => (s, [], [])

/-- `switchMap` step: every intent starts a fresh call, unsubscribing
from (cancelling) any in-flight one, whose later settling is therefore
discarded; only the currently subscribed call's settling emits. -/
def switchStep {P R A : Type} (out : P → R → A) (s : PipeState P) :
    EffEvent P R → PipeState P × List P × List A
  | EffEvent.intent p => (⟨s.nextId + 1, some (s.nextId, p)⟩, [p], [])
  | EffEvent.settle k r =>
    match s.current with
    | some c => if c.1 = k then (⟨s.nextId, none⟩, [], [out c.2 r]) else (s, [], [])
    | none => (s, [], [])

/-- Run a pipeline over an event trace, collecting all service
invocations and all emitted outcome actions in order. -/
def runPipe {P R A : Type} (step : PipeState P → EffEvent P R → PipeState P × List P × List A)
    (s : PipeState P) : List (EffEvent P R) → PipeState P × List P × List A
  | [] => (s, [], [])
  | e :: es =>
    let x := step s e
    let y := runPipe step x.1 es
    (y.1, x.2.1 ++ y.2.1, x.2.2 ++ y.2.2)

/-- The idle pipeline. -/
def initPipe (P : Type) : PipeState P := ⟨0, none⟩

/-! ## Concrete fixtures for witnesses and counterexamples -/

/-- A full-CRUD enhanced reducer config with no callbacks. -/
def exCfgE : Enh.Config Nat Nat Nat Nat :=
  ⟨true, true, true, true, true, none, none, none⟩

/-- A concrete enhanced composite state. -/
def exStE : Enh.KState Nat Nat :=
  ⟨⟨some 5, some "old", false, false, false, false⟩, 3⟩

/-- A full-CRUD state_4 reducer config with no callbacks and no
additional transitions; its initial state has data present and a
non-default `other` field. -/
def exCfgS4 : S4.Config Nat Nat Nat Nat Nat Nat :=
  ⟨true, true, true, true, true, ⟨⟨some 1, false, none⟩, 5⟩, [], none, none, none⟩

/-- A concrete state_4 composite state differing from the config's
initial state in both the sub-slice and the `other` field. -/
def exStS4 : S4.KState Nat Nat :=
  ⟨⟨none, true, some "e"⟩, 7⟩

/-- The canonical keyed append callback, mirroring the repository's own
usage example: spread the old sub-slice and replace its data with the
appended collection. -/
def onAddAppendK (s : Enh.KState (List Nat) Nat) (it : Option Nat) : Enh.KPatch (List Nat) Nat :=
  ⟨some { s.slice with data := some (s.slice.data.getD [] ++ (match it with | some x => [x] | none => [])) },
   none⟩

/-- An enhanced config whose add-success callback appends the item. -/
def exCfgC4 : Enh.Config (List Nat) Nat Nat Nat :=
  ⟨true, true, true, true, true, some onAddAppendK, none, none⟩

/-- A concrete state whose data holds the collection `[1]`. -/
def exStC4 : Enh.KState (List Nat) Nat :=
  ⟨⟨some [1], none, false, false, false, false⟩, 0⟩

/-- The flat append callback from the repository's usage example
(`data: state.data ? [...state.data, item] : [item]`): patch only the
`data` field with the appended collection. -/
def onAddAppendFlat {α : Type} (s : AsyncState (List α)) (it : Option α) : Gen.GPatch (List α) :=
  ⟨some (some (s.data.getD [] ++ (match it with | some x => [x] | none => []))), none, none⟩

/-- A flat generic config whose add-success callback is the canonical
data-appending one. -/
def exCfgGen : Gen.Config (List Nat) Nat Nat :=
  ⟨true, true, true, true, true, ⟨none, false, none⟩, some onAddAppendFlat, none, none⟩

/-- A caller-supplied function message resolver returning the empty
string. -/
def emptyResolver : Imp.MsgCfg JsError := some (Sum.inr (fun _ => ""))

/-! ## Helper lemmas -/

/-- The JS fallback never yields an empty string when its default is
non-empty. -/
theorem jsOr_ne_empty {s : Option String} {d : String} (hd : d ≠ "") : jsOr s d ≠ "" := by
  rcases s with _ | v
  · simp only [jsOr]
    exact hd
  · by_cases hv : v = ""
    · simp only [jsOr, hv, if_pos]
      exact hd
    · simp only [jsOr, if_neg hv]
      exact hv


/-- Same feature: the suffix determines the action type. -/
theorem mkType_eq_iff {f A B : String} : mkType f A = mkType f B ↔ A = B := by
  constructor
  · intro h
    have h1 := congrArg String.data h
    simp only [mkType, String.data_append, List.append_assoc, List.append_right_inj] at h1
    exact String.ext h1
  · intro h
    rw [h]

/-- No generated suffix is a suffix of a different generated suffix. -/
theorem suffix_eq_of_isSuffix :
    ∀ A ∈ actionSuffixes, ∀ B ∈ actionSuffixes, A.data <:+ B.data → A = B := by
  decide

/-- Full injectivity of the generated action type names: equal rendered
names force equal features and equal suffixes. -/
theorem mkType_inj {f g A B : String} (hA : A ∈ actionSuffixes) (hB : B ∈ actionSuffixes)
    (h : mkType f A = mkType g B) : f = g ∧ A = B := by
  have h1 := congrArg String.data h
  simp only [mkType, String.data_append, List.append_assoc, List.append_right_inj] at h1
  have hsA : A.data <:+ g.data ++ B.data := ⟨f.data, h1⟩
  have hsB : B.data <:+ g.data ++ B.data := List.suffix_append _ _
  have hAB : A = B := by
    rcases List.suffix_or_suffix_of_suffix hsA hsB with hs | hs
    · exact suffix_eq_of_isSuffix A hA B hB hs
    · exact (suffix_eq_of_isSuffix B hB A hA hs).symm
  subst hAB
  exact ⟨String.ext ((List.append_left_inj _).mp h1), rfl⟩

/-- Folding a concatenated handler list. -/
theorem runHandlers_append {σ T It Id P Q : Type}
    (h₁ h₂ : List (String × (σ → DynAction T It Id P Q → σ)))
    (s : σ) (a : DynAction T It Id P Q) :
    runHandlers (h₁ ++ h₂) s a = runHandlers h₂ (runHandlers h₁ s a) a := by
  simp [runHandlers, List.foldl_append]

/-- A handler list none of whose types matches the action passes the
state through. -/
theorem runHandlers_skip {σ T It Id P Q : Type}
    (hs : List (String × (σ → DynAction T It Id P Q → σ)))
    (s : σ) (a : DynAction T It Id P Q)
    (h : ∀ p ∈ hs, p.1 ≠ a.type) : runHandlers hs s a = s := by
  induction hs generalizing s with
  | nil => rfl
  | cons p t ih =>
    have hp : p.1 ≠ a.type := h p (List.mem_cons_self p t)
    have ht : ∀ q ∈ t, q.1 ≠ a.type := fun q hq => h q (List.mem_cons_of_mem p hq)
    simp only [runHandlers, List.foldl_cons, if_neg hp]
    exact ih s ht

/-- C8.  For every feature name, the action-group factories generate
signal constructors whose type names are pairwise distinct within the
group; and for two distinct feature names the generated groups share no
type name, so no signal of one feature matches a handler of the other. -/
theorem generated_type_names_unique :
    (∀ f : String, (groupTypes f).Nodup) ∧
    (∀ f g : String, f ≠ g → ∀ t, t ∈ groupTypes f → t ∉ groupTypes g) := by
  constructor
  · intro f
    have hinj : ∀ A ∈ actionSuffixes, ∀ B ∈ actionSuffixes, mkType f A = mkType f B → A = B :=
      fun A _ B _ h => mkType_eq_iff.mp h
    exact List.Nodup.map_on hinj (by decide)
  · intro f g hfg t htf htg
    rcases List.mem_map.mp htf with ⟨A, hA, rfl⟩
    rcases List.mem_map.mp htg with ⟨B, hB, hEq⟩
    exact hfg ((mkType_inj hB hA hEq).1).symm

/-- Witness for the cross-feature part of C8 at concrete features. -/
theorem generated_type_names_unique_witness :
    (groupTypes "User").Nodup ∧ "[User] Load" ∉ groupTypes "Product" := by
  refine ⟨generated_type_names_unique.1 "User", ?_⟩
  have h : "[User] Load" ∈ groupTypes "User" := by decide
  exact generated_type_names_unique.2 "User" "Product" (by decide) "[User] Load" h

/-- Evaluation of the enhanced reducer on a load intent. -/
theorem Enh_reduce_load {T It Id P Q O : Type} (f : String) (cfg : Enh.Config T It Id O)
    (s : Enh.KState T O) (prm : Option Q) (fr : Option Bool) (hL : cfg.hasLoad = true) :
    Enh.reduce f cfg s (@mkLoad T It Id P Q f prm fr) =
      { s with slice := { s.slice with isLoading := true, error := none } } := by
  obtain ⟨hl, ha, hu, hd, hr, oa, ou, od⟩ := cfg
  simp only at hL
  subst hL
  cases ha <;> cases hu <;> cases hd <;> cases hr <;>
    simp [Enh.reduce, Enh.createDefaultReducerHandlers, runHandlers, mkLoad,
      mkType_eq_iff, sufLoad, sufLoadSuccess, sufLoadFailure, sufAdd, sufAddSuccess,
      sufAddFailure, sufUpdate, sufUpdateSuccess, sufUpdateFailure, sufDelete,
      sufDeleteSuccess, sufDeleteFailure, sufReset]


/-- Folding the empty handler list. -/
theorem runHandlers_nil {σ T It Id P Q : Type} (s : σ) (a : DynAction T It Id P Q) :
    runHandlers ([] : List (String × (σ → DynAction T It Id P Q → σ))) s a = s := rfl

/-- Folding one handler then the rest. -/
theorem runHandlers_cons {σ T It Id P Q : Type}
    (p : String × (σ → DynAction T It Id P Q → σ))
    (t : List (String × (σ → DynAction T It Id P Q → σ)))
    (s : σ) (a : DynAction T It Id P Q) :
    runHandlers (p :: t) s a = runHandlers t (if p.1 = a.type then p.2 s a else s) a := rfl

/-- Evaluation of the enhanced reducer on `add`. -/
theorem Enh_reduce_add {T It Id P Q O : Type} (f : String) (cfg : Enh.Config T It Id O)
    (s : Enh.KState T O) (pl : P) (hOp : cfg.hasAdd = true) :
    Enh.reduce f cfg s (@mkAdd T It Id P Q f pl) = { s with slice := { s.slice with isAdding := true, error := none } } := by
  obtain ⟨hl, ha, hu, hd, hr, oa, ou, od⟩ := cfg
  simp only at hOp
  subst hOp
  cases hl <;> cases hu <;> cases hd <;> cases hr <;>
    simp [Enh.reduce, Enh.createDefaultReducerHandlers, runHandlers, mkAdd, Enh.createDefaultState,
      mkType_eq_iff, sufLoad, sufLoadSuccess, sufLoadFailure, sufAdd, sufAddSuccess,
      sufAddFailure, sufUpdate, sufUpdateSuccess, sufUpdateFailure, sufDelete,
      sufDeleteSuccess, sufDeleteFailure, sufReset]

/-- Evaluation of the enhanced reducer on `update`. -/
theorem Enh_reduce_update {T It Id P Q O : Type} (f : String) (cfg : Enh.Config T It Id O)
    (s : Enh.KState T O) (i : Id) (pl : P) (hOp : cfg.hasUpdate = true) :
    Enh.reduce f cfg s (@mkUpdate T It Id P Q f i pl) = { s with slice := { s.slice with isUpdating := true, error := none } } := by
  obtain ⟨hl, ha, hu, hd, hr, oa, ou, od⟩ := cfg
  simp only at hOp
  subst hOp
  cases hl <;> cases ha <;> cases hd <;> cases hr <;>
    simp [Enh.reduce, Enh.createDefaultReducerHandlers, runHandlers, mkUpdate, Enh.createDefaultState,
      mkType_eq_iff, sufLoad, sufLoadSuccess, sufLoadFailure, sufAdd, sufAddSuccess,
      sufAddFailure, sufUpdate, sufUpdateSuccess, sufUpdateFailure, sufDelete,
      sufDeleteSuccess, sufDeleteFailure, sufReset]

/-- Evaluation of the enhanced reducer on `delete`. -/
theorem Enh_reduce_delete {T It Id P Q O : Type} (f : String) (cfg : Enh.Config T It Id O)
    (s : Enh.KState T O) (i : Id) (hOp : cfg.hasDelete = true) :
    Enh.reduce f cfg s (@mkDelete T It Id P Q f i) = { s with slice := { s.slice with isDeleting := true, error := none } } := by
  obtain ⟨hl, ha, hu, hd, hr, oa, ou, od⟩ := cfg
  simp only at hOp
  subst hOp
  cases hl <;> cases ha <;> cases hu <;> cases hr <;>
    simp [Enh.reduce, Enh.createDefaultReducerHandlers, runHandlers, mkDelete, Enh.createDefaultState,
      mkType_eq_iff, sufLoad, sufLoadSuccess, sufLoadFailure, sufAdd, sufAddSuccess,
      sufAddFailure, sufUpdate, sufUpdateSuccess, sufUpdateFailure, sufDelete,
      sufDeleteSuccess, sufDeleteFailure, sufReset]

/-- Evaluation of the enhanced reducer on `loadFailure`. -/
theorem Enh_reduce_loadFailure {T It Id P Q O : Type} (f : String) (cfg : Enh.Config T It Id O)
    (s : Enh.KState T O) (e : String) (hOp : cfg.hasLoad = true) :
    Enh.reduce f cfg s (@mkLoadFailure T It Id P Q f e) = { s with slice := { s.slice with isLoading := false, error := some e } } := by
  obtain ⟨hl, ha, hu, hd, hr, oa, ou, od⟩ := cfg
  simp only at hOp
  subst hOp
  cases ha <;> cases hu <;> cases hd <;> cases hr <;>
    simp [Enh.reduce, Enh.createDefaultReducerHandlers, runHandlers, mkLoadFailure, Enh.createDefaultState,
      mkType_eq_iff, sufLoad, sufLoadSuccess, sufLoadFailure, sufAdd, sufAddSuccess,
      sufAddFailure, sufUpdate, sufUpdateSuccess, sufUpdateFailure, sufDelete,
      sufDeleteSuccess, sufDeleteFailure, sufReset]

/-- Evaluation of the enhanced reducer on `addFailure`. -/
theorem Enh_reduce_addFailure {T It Id P Q O : Type} (f : String) (cfg : Enh.Config T It Id O)
    (s : Enh.KState T O) (e : String) (hOp : cfg.hasAdd = true) :
    Enh.reduce f cfg s (@mkAddFailure T It Id P Q f e) = { s with slice := { s.slice with isAdding := false, error := some e } } := by
  obtain ⟨hl, ha, hu, hd, hr, oa, ou, od⟩ := cfg
  simp only at hOp
  subst hOp
  cases hl <;> cases hu <;> cases hd <;> cases hr <;>
    simp [Enh.reduce, Enh.createDefaultReducerHandlers, runHandlers, mkAddFailure, Enh.createDefaultState,
      mkType_eq_iff, sufLoad, sufLoadSuccess, sufLoadFailure, sufAdd, sufAddSuccess,
      sufAddFailure, sufUpdate, sufUpdateSuccess, sufUpdateFailure, sufDelete,
      sufDeleteSuccess, sufDeleteFailure, sufReset]

/-- Evaluation of the enhanced reducer on `updateFailure`. -/
theorem Enh_reduce_updateFailure {T It Id P Q O : Type} (f : String) (cfg : Enh.Config T It Id O)
    (s : Enh.KState T O) (e : String) (hOp : cfg.hasUpdate = true) :
    Enh.reduce f cfg s (@mkUpdateFailure T It Id P Q f e) = { s with slice := { s.slice with isUpdating := false, error := some e } } := by
  obtain ⟨hl, ha, hu, hd, hr, oa, ou, od⟩ := cfg
  simp only at hOp
  subst hOp
  cases hl <;> cases ha <;> cases hd <;> cases hr <;>
    simp [Enh.reduce, Enh.createDefaultReducerHandlers, runHandlers, mkUpdateFailure, Enh.createDefaultState,
      mkType_eq_iff, sufLoad, sufLoadSuccess, sufLoadFailure, sufAdd, sufAddSuccess,
      sufAddFailure, sufUpdate, sufUpdateSuccess, sufUpdateFailure, sufDelete,
      sufDeleteSuccess, sufDeleteFailure, sufReset]

/-- Evaluation of the enhanced reducer on `deleteFailure`. -/
theorem Enh_reduce_deleteFailure {T It Id P Q O : Type} (f : String) (cfg : Enh.Config T It Id O)
    (s : Enh.KState T O) (e : String) (hOp : cfg.hasDelete = true) :
    Enh.reduce f cfg s (@mkDeleteFailure T It Id P Q f e) = { s with slice := { s.slice with isDeleting := false, error := some e } } := by
  obtain ⟨hl, ha, hu, hd, hr, oa, ou, od⟩ := cfg
  simp only at hOp
  subst hOp
  cases hl <;> cases ha <;> cases hu <;> cases hr <;>
    simp [Enh.reduce, Enh.createDefaultReducerHandlers, runHandlers, mkDeleteFailure, Enh.createDefaultState,
      mkType_eq_iff, sufLoad, sufLoadSuccess, sufLoadFailure, sufAdd, sufAddSuccess,
      sufAddFailure, sufUpdate, sufUpdateSuccess, sufUpdateFailure, sufDelete,
      sufDeleteSuccess, sufDeleteFailure, sufReset]

/-- Evaluation of the enhanced reducer on `reset`. -/
theorem Enh_reduce_reset {T It Id P Q O : Type} (f : String) (cfg : Enh.Config T It Id O)
    (s : Enh.KState T O) (hOp : cfg.hasReset = true) :
    Enh.reduce f cfg s (@mkReset T It Id P Q f) = { s with slice := Enh.createDefaultState none } := by
  obtain ⟨hl, ha, hu, hd, hr, oa, ou, od⟩ := cfg
  simp only at hOp
  subst hOp
  cases hl <;> cases ha <;> cases hu <;> cases hd <;>
    simp [Enh.reduce, Enh.createDefaultReducerHandlers, runHandlers, mkReset, Enh.createDefaultState,
      mkType_eq_iff, sufLoad, sufLoadSuccess, sufLoadFailure, sufAdd, sufAddSuccess,
      sufAddFailure, sufUpdate, sufUpdateSuccess, sufUpdateFailure, sufDelete,
      sufDeleteSuccess, sufDeleteFailure, sufReset]


/-- Evaluation of the state_4 reducer on `load` when no additional
transition is keyed on the same action type. -/
theorem S4_reduce_load {T It Id P Q O : Type} (f : String) (cfg : S4.Config T It Id P Q O)
    (s : S4.KState T O) (prm : Option Q) (fr : Option Bool) (hOp : cfg.hasLoad = true)
    (hadd : ∀ p ∈ cfg.additional, p.1 ≠ mkType f sufLoad) :
    S4.reduce f cfg s (@mkLoad T It Id P Q f prm fr) = { s with slice := { s.slice with isLoading := true, error := none } } := by
  obtain ⟨hl, ha, hu, hd, hr, ini, addl, oa, ou, od⟩ := cfg
  simp only at hOp hadd ⊢
  subst hOp
  cases ha <;> cases hu <;> cases hd <;> cases hr <;>
    (simp [S4.reduce, S4.createGenericReducer, runHandlers_append, runHandlers_cons,
       runHandlers_nil, mkLoad, mkType_eq_iff, sufLoad, sufLoadSuccess, sufLoadFailure, sufAdd, sufAddSuccess,
      sufAddFailure, sufUpdate, sufUpdateSuccess, sufUpdateFailure, sufDelete,
      sufDeleteSuccess, sufDeleteFailure, sufReset]
     exact runHandlers_skip addl _ _ hadd)

/-- Evaluation of the state_4 reducer on `add` when no additional
transition is keyed on the same action type. -/
theorem S4_reduce_add {T It Id P Q O : Type} (f : String) (cfg : S4.Config T It Id P Q O)
    (s : S4.KState T O) (pl : P) (hOp : cfg.hasAdd = true)
    (hadd : ∀ p ∈ cfg.additional, p.1 ≠ mkType f sufAdd) :
    S4.reduce f cfg s (@mkAdd T It Id P Q f pl) = { s with slice := { s.slice with isLoading := true, error := none } } := by
  obtain ⟨hl, ha, hu, hd, hr, ini, addl, oa, ou, od⟩ := cfg
  simp only at hOp hadd ⊢
  subst hOp
  cases hl <;> cases hu <;> cases hd <;> cases hr <;>
    (simp [S4.reduce, S4.createGenericReducer, runHandlers_append, runHandlers_cons,
       runHandlers_nil, mkAdd, mkType_eq_iff, sufLoad, sufLoadSuccess, sufLoadFailure, sufAdd, sufAddSuccess,
      sufAddFailure, sufUpdate, sufUpdateSuccess, sufUpdateFailure, sufDelete,
      sufDeleteSuccess, sufDeleteFailure, sufReset]
     exact runHandlers_skip addl _ _ hadd)

/-- Evaluation of the state_4 reducer on `update` when no additional
transition is keyed on the same action type. -/
theorem S4_reduce_update {T It Id P Q O : Type} (f : String) (cfg : S4.Config T It Id P Q O)
    (s : S4.KState T O) (i : Id) (pl : P) (hOp : cfg.hasUpdate = true)
    (hadd : ∀ p ∈ cfg.additional, p.1 ≠ mkType f sufUpdate) :
    S4.reduce f cfg s (@mkUpdate T It Id P Q f i pl) = { s with slice := { s.slice with isLoading := true, error := none } } := by
  obtain ⟨hl, ha, hu, hd, hr, ini, addl, oa, ou, od⟩ := cfg
  simp only at hOp hadd ⊢
  subst hOp
  cases hl <;> cases ha <;> cases hd <;> cases hr <;>
    (simp [S4.reduce, S4.createGenericReducer, runHandlers_append, runHandlers_cons,
       runHandlers_nil, mkUpdate, mkType_eq_iff, sufLoad, sufLoadSuccess, sufLoadFailure, sufAdd, sufAddSuccess,
      sufAddFailure, sufUpdate, sufUpdateSuccess, sufUpdateFailure, sufDelete,
      sufDeleteSuccess, sufDeleteFailure, sufReset]
     exact runHandlers_skip addl _ _ hadd)

/-- Evaluation of the state_4 reducer on `delete` when no additional
transition is keyed on the same action type. -/
theorem S4_reduce_delete {T It Id P Q O : Type} (f : String) (cfg : S4.Config T It Id P Q O)
    (s : S4.KState T O) (i : Id) (hOp : cfg.hasDelete = true)
    (hadd : ∀ p ∈ cfg.additional, p.1 ≠ mkType f sufDelete) :
    S4.reduce f cfg s (@mkDelete T It Id P Q f i) = { s with slice := { s.slice with isLoading := true, error := none } } := by
  obtain ⟨hl, ha, hu, hd, hr, ini, addl, oa, ou, od⟩ := cfg
  simp only at hOp hadd ⊢
  subst hOp
  cases hl <;> cases ha <;> cases hu <;> cases hr <;>
    (simp [S4.reduce, S4.createGenericReducer, runHandlers_append, runHandlers_cons,
       runHandlers_nil, mkDelete, mkType_eq_iff, sufLoad, sufLoadSuccess, sufLoadFailure, sufAdd, sufAddSuccess,
      sufAddFailure, sufUpdate, sufUpdateSuccess, sufUpdateFailure, sufDelete,
      sufDeleteSuccess, sufDeleteFailure, sufReset]
     exact runHandlers_skip addl _ _ hadd)

/-- Evaluation of the state_4 reducer on `reset` when no additional
transition is keyed on the same action type. -/
theorem S4_reduce_reset {T It Id P Q O : Type} (f : String) (cfg : S4.Config T It Id P Q O)
    (s : S4.KState T O) (hOp : cfg.hasReset = true)
    (hadd : ∀ p ∈ cfg.additional, p.1 ≠ mkType f sufReset) :
    S4.reduce f cfg s (@mkReset T It Id P Q f) = cfg.initialState := by
  obtain ⟨hl, ha, hu, hd, hr, ini, addl, oa, ou, od⟩ := cfg
  simp only at hOp hadd ⊢
  subst hOp
  cases hl <;> cases ha <;> cases hu <;> cases hd <;>
    (simp [S4.reduce, S4.createGenericReducer, runHandlers_append, runHandlers_cons,
       runHandlers_nil, mkReset, mkType_eq_iff, sufLoad, sufLoadSuccess, sufLoadFailure, sufAdd, sufAddSuccess,
      sufAddFailure, sufUpdate, sufUpdateSuccess, sufUpdateFailure, sufDelete,
      sufDeleteSuccess, sufDeleteFailure, sufReset]
     exact runHandlers_skip addl _ _ hadd)

/-- Evaluation of the flat generic reducer on an add intent. -/
theorem Gen_reduce_add {T It Id P Q : Type} (f : String) (cfg : Gen.Config T It Id)
    (s : AsyncState T) (pl : P) (hOp : cfg.hasAdd = true) :
    Gen.reduce f cfg s (@mkAdd T It Id P Q f pl) =
      { s with isLoading := true, error := none } := by
  obtain ⟨hl, ha, hu, hd, hr, ini, oa, ou, od⟩ := cfg
  simp only at hOp
  subst hOp
  cases hl <;> cases hu <;> cases hd <;> cases hr <;>
    simp [Gen.reduce, Gen.createGenericReducer, runHandlers, mkAdd,
      mkType_eq_iff, sufLoad, sufLoadSuccess, sufLoadFailure, sufAdd, sufAddSuccess,
      sufAddFailure, sufUpdate, sufUpdateSuccess, sufUpdateFailure, sufDelete,
      sufDeleteSuccess, sufDeleteFailure, sufReset]

/-- Evaluation of the flat generic reducer on `addSuccess` when the
configured callback is the canonical data-appending one. -/
theorem Gen_reduce_addSuccess_append {α Id P Q : Type} (f : String)
    (cfg : Gen.Config (List α) α Id) (s : AsyncState (List α)) (x : α) (msg : Option String)
    (hOp : cfg.hasAdd = true) (hcb : cfg.onAddSuccess = some onAddAppendFlat) :
    Gen.reduce f cfg s (@mkAddSuccess (List α) α Id P Q f x msg) =
      ⟨some (s.data.getD [] ++ [x]), false, none⟩ := by
  obtain ⟨hl, ha, hu, hd, hr, ini, oa, ou, od⟩ := cfg
  simp only at hOp hcb
  subst hOp
  subst hcb
  cases hl <;> cases hu <;> cases hd <;> cases hr <;>
    simp [Gen.reduce, Gen.createGenericReducer, runHandlers, mkAddSuccess,
      Gen.applyPatch, onAddAppendFlat, mkType_eq_iff, sufLoad, sufLoadSuccess, sufLoadFailure, sufAdd, sufAddSuccess,
      sufAddFailure, sufUpdate, sufUpdateSuccess, sufUpdateFailure, sufDelete,
      sufDeleteSuccess, sufDeleteFailure, sufReset]

/-- C1.  For every enabled operation kind and every state, reducing the
corresponding intent signal (`load`, `add`, `update`, `delete`) yields a
state whose busy flag for that operation is true, whose `error` is
absent, and whose `data` equals what it was before the intent (the whole
rest of the state is in fact unchanged).  The enhanced keyed reducer
tracks one flag per kind; the state_4 keyed reducer tracks all kinds on
its shared `isLoading` flag, provided no caller-supplied additional
transition is keyed on the intent's type. -/
theorem intent_sets_busy_clears_error :
    (∀ (T It Id P Q O : Type) (f : String) (cfg : Enh.Config T It Id O) (s : Enh.KState T O)
        (prm : Option Q) (fr : Option Bool), cfg.hasLoad = true →
      Enh.reduce f cfg s (@mkLoad T It Id P Q f prm fr) =
        { s with slice := { s.slice with isLoading := true, error := none } }) ∧
    (∀ (T It Id P Q O : Type) (f : String) (cfg : Enh.Config T It Id O) (s : Enh.KState T O)
        (pl : P), cfg.hasAdd = true →
      Enh.reduce f cfg s (@mkAdd T It Id P Q f pl) =
        { s with slice := { s.slice with isAdding := true, error := none } }) ∧
    (∀ (T It Id P Q O : Type) (f : String) (cfg : Enh.Config T It Id O) (s : Enh.KState T O)
        (i : Id) (pl : P), cfg.hasUpdate = true →
      Enh.reduce f cfg s (@mkUpdate T It Id P Q f i pl) =
        { s with slice := { s.slice with isUpdating := true, error := none } }) ∧
    (∀ (T It Id P Q O : Type) (f : String) (cfg : Enh.Config T It Id O) (s : Enh.KState T O)
        (i : Id), cfg.hasDelete = true →
      Enh.reduce f cfg s (@mkDelete T It Id P Q f i) =
        { s with slice := { s.slice with isDeleting := true, error := none } }) ∧
    (∀ (T It Id P Q O : Type) (f : String) (cfg : S4.Config T It Id P Q O) (s : S4.KState T O)
        (prm : Option Q) (fr : Option Bool), cfg.hasLoad = true →
        (∀ p ∈ cfg.additional, p.1 ≠ mkType f sufLoad) →
      S4.reduce f cfg s (@mkLoad T It Id P Q f prm fr) =
        { s with slice := { s.slice with isLoading := true, error := none } }) ∧
    (∀ (T It Id P Q O : Type) (f : String) (cfg : S4.Config T It Id P Q O) (s : S4.KState T O)
        (pl : P), cfg.hasAdd = true →
        (∀ p ∈ cfg.additional, p.1 ≠ mkType f sufAdd) →
      S4.reduce f cfg s (@mkAdd T It Id P Q f pl) =
        { s with slice := { s.slice with isLoading := true, error := none } }) ∧
    (∀ (T It Id P Q O : Type) (f : String) (cfg : S4.Config T It Id P Q O) (s : S4.KState T O)
        (i : Id) (pl : P), cfg.hasUpdate = true →
        (∀ p ∈ cfg.additional, p.1 ≠ mkType f sufUpdate) →
      S4.reduce f cfg s (@mkUpdate T It Id P Q f i pl) =
        { s with slice := { s.slice with isLoading := true, error := none } }) ∧
    (∀ (T It Id P Q O : Type) (f : String) (cfg : S4.Config T It Id P Q O) (s : S4.KState T O)
        (i : Id), cfg.hasDelete = true →
        (∀ p ∈ cfg.additional, p.1 ≠ mkType f sufDelete) →
      S4.reduce f cfg s (@mkDelete T It Id P Q f i) =
        { s with slice := { s.slice with isLoading := true, error := none } }) :=
  ⟨fun _ _ _ _ _ _ f cfg s prm fr h => Enh_reduce_load f cfg s prm fr h,
   fun _ _ _ _ _ _ f cfg s pl h => Enh_reduce_add f cfg s pl h,
   fun _ _ _ _ _ _ f cfg s i pl h => Enh_reduce_update f cfg s i pl h,
   fun _ _ _ _ _ _ f cfg s i h => Enh_reduce_delete f cfg s i h,
   fun _ _ _ _ _ _ f cfg s prm fr h ha => S4_reduce_load f cfg s prm fr h ha,
   fun _ _ _ _ _ _ f cfg s pl h ha => S4_reduce_add f cfg s pl h ha,
   fun _ _ _ _ _ _ f cfg s i pl h ha => S4_reduce_update f cfg s i pl h ha,
   fun _ _ _ _ _ _ f cfg s i h ha => S4_reduce_delete f cfg s i h ha⟩

/-- Witness for C1: every conjunct applied at concrete inputs. -/
theorem intent_sets_busy_clears_error_witness :
    (Enh.reduce "F" exCfgE exStE (@mkLoad Nat Nat Nat Nat Nat "F" (some 1) none) =
      { exStE with slice := { exStE.slice with isLoading := true, error := none } }) ∧
    (Enh.reduce "F" exCfgE exStE (@mkAdd Nat Nat Nat Nat Nat "F" 2) =
      { exStE with slice := { exStE.slice with isAdding := true, error := none } }) ∧
    (Enh.reduce "F" exCfgE exStE (@mkUpdate Nat Nat Nat Nat Nat "F" 4 2) =
      { exStE with slice := { exStE.slice with isUpdating := true, error := none } }) ∧
    (Enh.reduce "F" exCfgE exStE (@mkDelete Nat Nat Nat Nat Nat "F" 4) =
      { exStE with slice := { exStE.slice with isDeleting := true, error := none } }) ∧
    (S4.reduce "F" exCfgS4 exStS4 (@mkLoad Nat Nat Nat Nat Nat "F" (some 1) none) =
      { exStS4 with slice := { exStS4.slice with isLoading := true, error := none } }) ∧
    (S4.reduce "F" exCfgS4 exStS4 (@mkAdd Nat Nat Nat Nat Nat "F" 2) =
      { exStS4 with slice := { exStS4.slice with isLoading := true, error := none } }) ∧
    (S4.reduce "F" exCfgS4 exStS4 (@mkUpdate Nat Nat Nat Nat Nat "F" 4 2) =
      { exStS4 with slice := { exStS4.slice with isLoading := true, error := none } }) ∧
    (S4.reduce "F" exCfgS4 exStS4 (@mkDelete Nat Nat Nat Nat Nat "F" 4) =
      { exStS4 with slice := { exStS4.slice with isLoading := true, error := none } }) := by
  have hadd : ∀ suf : String, ∀ p ∈ exCfgS4.additional, p.1 ≠ mkType "F" suf := by
    intro suf p hp
    simp [exCfgS4] at hp
  exact ⟨intent_sets_busy_clears_error.1 Nat Nat Nat Nat Nat Nat "F" exCfgE exStE (some 1) none rfl,
    intent_sets_busy_clears_error.2.1 Nat Nat Nat Nat Nat Nat "F" exCfgE exStE 2 rfl,
    intent_sets_busy_clears_error.2.2.1 Nat Nat Nat Nat Nat Nat "F" exCfgE exStE 4 2 rfl,
    intent_sets_busy_clears_error.2.2.2.1 Nat Nat Nat Nat Nat Nat "F" exCfgE exStE 4 rfl,
    intent_sets_busy_clears_error.2.2.2.2.1 Nat Nat Nat Nat Nat Nat "F" exCfgS4 exStS4 (some 1) none rfl (hadd sufLoad),
    intent_sets_busy_clears_error.2.2.2.2.2.1 Nat Nat Nat Nat Nat Nat "F" exCfgS4 exStS4 2 rfl (hadd sufAdd),
    intent_sets_busy_clears_error.2.2.2.2.2.2.1 Nat Nat Nat Nat Nat Nat "F" exCfgS4 exStS4 4 2 rfl (hadd sufUpdate),
    intent_sets_busy_clears_error.2.2.2.2.2.2.2 Nat Nat Nat Nat Nat Nat "F" exCfgS4 exStS4 4 rfl (hadd sufDelete)⟩

/-- C2.  The guarded load pipeline: when the latest state already has
non-absent `data` and the intent's `forceReload` is false or absent, the
injected service is not invoked (the pipeline returns `EMPTY`) and no
outcome signal is emitted; when the intent carries `forceReload: true`,
the service is invoked regardless of existing `data` and its settled
result is mapped to the single outcome signal. -/
theorem load_effect_skip_and_force :
    (∀ (T Q : Type) (d : Option T) (prm : Option Q) (fr : Option Bool),
        d.isSome = true → fr.getD false = false →
      Enh.loadEffectStep d prm fr = Enh.LoadDecision.skip) ∧
    (∀ (T It Id P Q : Type) (f : String) (d : Option T) (prm : Option Q) (fr : Option Bool)
        (svc : Option Q → Except JsError T) (okMsg failMsg : String),
        d.isSome = true → fr.getD false = false →
      @Enh.loadEffectOutput T It Id P Q f d prm fr svc okMsg failMsg = none) ∧
    (∀ (T Q : Type) (d : Option T) (prm : Option Q),
      Enh.loadEffectStep d prm (some true) = Enh.LoadDecision.invoke prm) ∧
    (∀ (T It Id P Q : Type) (f : String) (d : Option T) (prm : Option Q)
        (svc : Option Q → Except JsError T) (okMsg failMsg : String),
      @Enh.loadEffectOutput T It Id P Q f d prm (some true) svc okMsg failMsg =
        some (Enh.loadOutcome f okMsg failMsg (svc prm))) := by
  refine ⟨?_, ?_, ?_, ?_⟩
  · intro T Q d prm fr hd hfr
    simp [Enh.loadEffectStep, Enh.loadGuard, hd, hfr]
  · intro T It Id P Q f d prm fr svc okMsg failMsg hd hfr
    simp [Enh.loadEffectOutput, Enh.loadEffectStep, Enh.loadGuard, hd, hfr]
  · intro T Q d prm
    simp [Enh.loadEffectStep, Enh.loadGuard]
  · intro T It Id P Q f d prm svc okMsg failMsg
    simp [Enh.loadEffectOutput, Enh.loadEffectStep, Enh.loadGuard]

/-- Witness for C2 at concrete inputs: data present with `forceReload`
absent skips; `forceReload: true` invokes. -/
theorem load_effect_skip_and_force_witness :
    (Enh.loadEffectStep (some 5) (some 1) none = Enh.LoadDecision.skip) ∧
    (@Enh.loadEffectOutput Nat Nat Nat Nat Nat "F" (some 5) (some 1) none
        (fun _ => Except.ok 7) "ok" "Load failed" = none) ∧
    (Enh.loadEffectStep (some 5) (some 1) (some true) = Enh.LoadDecision.invoke (some 1)) ∧
    (@Enh.loadEffectOutput Nat Nat Nat Nat Nat "F" (some 5) (some 1) (some true)
        (fun _ => Except.ok 7) "ok" "Load failed" =
      some (Enh.loadOutcome "F" "ok" "Load failed" (Except.ok 7))) :=
  ⟨load_effect_skip_and_force.1 Nat Nat (some 5) (some 1) none rfl rfl,
   load_effect_skip_and_force.2.1 Nat Nat Nat Nat Nat "F" (some 5) (some 1) none
     (fun _ => Except.ok 7) "ok" "Load failed" rfl rfl,
   load_effect_skip_and_force.2.2.1 Nat Nat (some 5) (some 1),
   load_effect_skip_and_force.2.2.2 Nat Nat Nat Nat Nat "F" (some 5) (some 1)
     (fun _ => Except.ok 7) "ok" "Load failed"⟩

/-- C3.  Failure containment: a service rejection whose error carries a
(truthy) message `X` is caught and converted — with no caller-supplied
message resolver — into the matching failure signal carrying exactly
`X`; reducing that failure signal after the intent yields `error = X`,
the operation's busy flag false, and `data` unchanged from before the
intent; and the pipelines themselves never raise: the outcome map is
total (every settled call, success or failure, becomes exactly one
signal) and a pipeline that saw a failure still processes subsequent
intents. -/
theorem failure_caught_and_converted :
    (∀ (e : JsError) (X : String), e.message = some X → X ≠ "" →
      Imp.loadErrMsg none e = X ∧ Imp.addErrMsg none e = X ∧
      Imp.updateErrMsg none e = X ∧ Imp.deleteErrMsg none e = X) ∧
    (∀ (T It Id P Q : Type) (f : String) (e : JsError) (X : String),
        e.message = some X → X ≠ "" →
      @Imp.loadOutcome T It Id P Q f none (Except.error e) = mkLoadFailure f X ∧
      @Imp.addOutcome T It Id P Q f none (Except.error e) = mkAddFailure f X ∧
      @Imp.updateOutcome T It Id P Q f none (Except.error e) = mkUpdateFailure f X) ∧
    (∀ (T It Id P Q O : Type) (f : String) (cfg : Enh.Config T It Id O) (s : Enh.KState T O)
        (prm : Option Q) (fr : Option Bool) (X : String), cfg.hasLoad = true →
      Enh.reduce f cfg (Enh.reduce f cfg s (@mkLoad T It Id P Q f prm fr))
          (@mkLoadFailure T It Id P Q f X) =
        { s with slice := { s.slice with isLoading := false, error := some X } }) ∧
    (∀ (T It Id P Q O : Type) (f : String) (cfg : Enh.Config T It Id O) (s : Enh.KState T O)
        (pl : P) (X : String), cfg.hasAdd = true →
      Enh.reduce f cfg (Enh.reduce f cfg s (@mkAdd T It Id P Q f pl))
          (@mkAddFailure T It Id P Q f X) =
        { s with slice := { s.slice with isAdding := false, error := some X } }) ∧
    (∀ (T It Id P Q O : Type) (f : String) (cfg : Enh.Config T It Id O) (s : Enh.KState T O)
        (i : Id) (pl : P) (X : String), cfg.hasUpdate = true →
      Enh.reduce f cfg (Enh.reduce f cfg s (@mkUpdate T It Id P Q f i pl))
          (@mkUpdateFailure T It Id P Q f X) =
        { s with slice := { s.slice with isUpdating := false, error := some X } }) ∧
    (∀ (T It Id P Q O : Type) (f : String) (cfg : Enh.Config T It Id O) (s : Enh.KState T O)
        (i : Id) (X : String), cfg.hasDelete = true →
      Enh.reduce f cfg (Enh.reduce f cfg s (@mkDelete T It Id P Q f i))
          (@mkDeleteFailure T It Id P Q f X) =
        { s with slice := { s.slice with isDeleting := false, error := some X } }) ∧
    (∀ (P R A : Type) (out : P → R → A) (p₁ : P) (r : R) (p₂ : P),
      runPipe (exhaustStep out) (initPipe P)
          [EffEvent.intent p₁, EffEvent.settle 0 r, EffEvent.intent p₂] =
        (⟨2, some (1, p₂)⟩, [p₁, p₂], [out p₁ r])) ∧
    (∀ (P R A : Type) (out : P → R → A) (p₁ : P) (r : R) (p₂ : P),
      runPipe (switchStep out) (initPipe P)
          [EffEvent.intent p₁, EffEvent.settle 0 r, EffEvent.intent p₂] =
        (⟨2, some (1, p₂)⟩, [p₁, p₂], [out p₁ r])) := by
  refine ⟨?_, ?_, ?_, ?_, ?_, ?_, ?_, ?_⟩
  · intro e X hm hX
    simp [Imp.loadErrMsg, Imp.addErrMsg, Imp.updateErrMsg, Imp.deleteErrMsg,
      Imp.resolveMessage, jsOr, hm, hX]
  · intro T It Id P Q f e X hm hX
    simp [Imp.loadOutcome, Imp.addOutcome, Imp.updateOutcome, Imp.loadErrMsg,
      Imp.addErrMsg, Imp.updateErrMsg, Imp.resolveMessage, jsOr, hm, hX]
  · intro T It Id P Q O f cfg s prm fr X hL
    rw [Enh_reduce_load f cfg s prm fr hL, Enh_reduce_loadFailure f cfg _ X hL]
  · intro T It Id P Q O f cfg s pl X hA
    rw [Enh_reduce_add f cfg s pl hA, Enh_reduce_addFailure f cfg _ X hA]
  · intro T It Id P Q O f cfg s i pl X hU
    rw [Enh_reduce_update f cfg s i pl hU, Enh_reduce_updateFailure f cfg _ X hU]
  · intro T It Id P Q O f cfg s i X hD
    rw [Enh_reduce_delete f cfg s i hD, Enh_reduce_deleteFailure f cfg _ X hD]
  · intro P R A out p₁ r p₂
    simp [runPipe, exhaustStep, initPipe]
  · intro P R A out p₁ r p₂
    simp [runPipe, switchStep, initPipe]

/-- Witness for C3 at concrete inputs. -/
theorem failure_caught_and_converted_witness :
    (Imp.loadErrMsg none ⟨some "boom"⟩ = "boom") ∧
    (@Imp.loadOutcome Nat Nat Nat Nat Nat "F" none (Except.error ⟨some "boom"⟩) =
      mkLoadFailure "F" "boom") ∧
    (Enh.reduce "F" exCfgE (Enh.reduce "F" exCfgE exStE (@mkAdd Nat Nat Nat Nat Nat "F" 2))
        (@mkAddFailure Nat Nat Nat Nat Nat "F" "boom") =
      { exStE with slice := { exStE.slice with isAdding := false, error := some "boom" } }) := by
  have h1 := (failure_caught_and_converted.1 ⟨some "boom"⟩ "boom" rfl (by decide)).1
  have h2 := (failure_caught_and_converted.2.1 Nat Nat Nat Nat Nat "F" ⟨some "boom"⟩ "boom" rfl (by decide)).1
  have h3 := failure_caught_and_converted.2.2.2.1 Nat Nat Nat Nat Nat Nat "F" exCfgE exStE 2 "boom" rfl
  exact ⟨h1, h2, h3⟩

/-- C6.  The add (and likewise update and delete) pipelines are built on
`exhaustMap`: a second intent of the same kind arriving while the first
service call is in flight is dropped — over the trace
intent₁, intent₂, settle — the service is invoked exactly once (for the
first intent), exactly one outcome signal is emitted, and it is the
first, uncancelled call's outcome; in general an intent arriving while
busy leaves the pipeline state untouched, invoking and emitting nothing. -/
theorem exhaust_drops_second_intent :
    (∀ (P R A : Type) (out : P → R → A) (p₁ p₂ : P) (r : R),
      runPipe (exhaustStep out) (initPipe P)
          [EffEvent.intent p₁, EffEvent.intent p₂, EffEvent.settle 0 r] =
        (⟨1, none⟩, [p₁], [out p₁ r])) ∧
    (∀ (P R A : Type) (out : P → R → A) (s : PipeState P) (c : Nat × P) (p : P),
      s.current = some c → exhaustStep out s (EffEvent.intent p) = (s, [], [])) := by
  constructor
  · intro P R A out p₁ p₂ r
    simp [runPipe, exhaustStep, initPipe]
  · intro P R A out s c p hc
    cases s
    simp only at hc
    simp [exhaustStep, hc]

/-- Witness for C6 at concrete inputs. -/
theorem exhaust_drops_second_intent_witness :
    (runPipe (exhaustStep (fun (a b : Nat) => a + b)) (initPipe Nat)
        [EffEvent.intent 3, EffEvent.intent 4, EffEvent.settle 0 10] =
      (⟨1, none⟩, [3], [13])) ∧
    (exhaustStep (fun (a b : Nat) => a + b) ⟨1, some (0, 5)⟩ (EffEvent.intent 6) =
      (⟨1, some (0, 5)⟩, [], [])) :=
  ⟨exhaust_drops_second_intent.1 Nat Nat Nat (fun a b => a + b) 3 4 10,
   exhaust_drops_second_intent.2 Nat Nat Nat (fun a b => a + b) ⟨1, some (0, 5)⟩ (0, 5) 6 rfl⟩

/-- C7.  The load pipeline is built on `switchMap`: a second load intent
arriving while the first call is in flight unsubscribes from
(cancels) the first call, whose later settling is discarded, so over the
trace intent₁, intent₂, settle₀, settle₁ both intents invoke the
service but only the second intent's outcome is emitted and reflected;
in general an intent always starts a fresh subscription replacing the
current one. -/
theorem switch_cancels_first_load :
    (∀ (P R A : Type) (out : P → R → A) (p₁ p₂ : P) (r₀ r₁ : R),
      runPipe (switchStep out) (initPipe P)
          [EffEvent.intent p₁, EffEvent.intent p₂,
           EffEvent.settle 0 r₀, EffEvent.settle 1 r₁] =
        (⟨2, none⟩, [p₁, p₂], [out p₂ r₁])) ∧
    (∀ (P R A : Type) (out : P → R → A) (s : PipeState P) (p : P),
      switchStep out s (EffEvent.intent p) =
        (⟨s.nextId + 1, some (s.nextId, p)⟩, [p], [])) := by
  constructor
  · intro P R A out p₁ p₂ r₀ r₁
    simp [runPipe, switchStep, initPipe]
  · intro P R A out s p
    rfl

/-- The types registered by the enhanced handler list are exactly the
generated types of its config. -/
theorem Enh_handler_types {T It Id P Q O : Type} (f : String) (cfg : Enh.Config T It Id O) :
    (@Enh.createDefaultReducerHandlers T It Id P Q O f cfg).map Prod.fst =
      Enh.generatedTypes f cfg := by
  obtain ⟨hl, ha, hu, hd, hr, oa, ou, od⟩ := cfg
  cases hl <;> cases ha <;> cases hu <;> cases hd <;> cases hr <;>
    simp [Enh.createDefaultReducerHandlers, Enh.generatedTypes]

/-- The types registered by the state_4 handler list are exactly the
generated types of its config followed by the additional handlers'. -/
theorem S4_handler_types {T It Id P Q O : Type} (f : String) (cfg : S4.Config T It Id P Q O) :
    (S4.createGenericReducer f cfg).map Prod.fst =
      S4.generatedTypes f cfg ++ cfg.additional.map Prod.fst := by
  obtain ⟨hl, ha, hu, hd, hr, ini, addl, oa, ou, od⟩ := cfg
  cases hl <;> cases ha <;> cases hu <;> cases hd <;> cases hr <;>
    simp [S4.createGenericReducer, S4.generatedTypes]

/-- C9.  A signal whose type is none of the action types registered for
the consumed ActionGroup (and, for the state_4 variant, none of the
caller-supplied additional transitions) leaves the reducer's input
state unchanged. -/
theorem unmatched_action_passes_through :
    (∀ (T It Id P Q O : Type) (f : String) (cfg : Enh.Config T It Id O) (s : Enh.KState T O)
        (a : DynAction T It Id P Q), a.type ∉ Enh.generatedTypes f cfg →
      Enh.reduce f cfg s a = s) ∧
    (∀ (T It Id P Q O : Type) (f : String) (cfg : S4.Config T It Id P Q O) (s : S4.KState T O)
        (a : DynAction T It Id P Q), a.type ∉ S4.generatedTypes f cfg →
        (∀ p ∈ cfg.additional, p.1 ≠ a.type) →
      S4.reduce f cfg s a = s) := by
  constructor
  · intro T It Id P Q O f cfg s a ha
    apply runHandlers_skip
    intro p hp hEq
    have hmem : p.1 ∈ Enh.generatedTypes f cfg := by
      rw [← @Enh_handler_types T It Id P Q O f cfg]
      exact List.mem_map_of_mem Prod.fst hp
    exact ha (hEq ▸ hmem)
  · intro T It Id P Q O f cfg s a ha hadd
    apply runHandlers_skip
    intro p hp hEq
    have hmem : p.1 ∈ S4.generatedTypes f cfg ++ cfg.additional.map Prod.fst := by
      rw [← S4_handler_types f cfg]
      exact List.mem_map_of_mem Prod.fst hp
    rcases List.mem_append.mp hmem with hg | hx
    · exact ha (hEq ▸ hg)
    · rcases List.mem_map.mp hx with ⟨q, hq, hq1⟩
      exact hadd q hq (hq1.trans hEq)

/-- Witness for C9: a foreign action type at a concrete config. -/
theorem unmatched_action_passes_through_witness :
    Enh.reduce "F" exCfgE exStE (@bareAction Nat Nat Nat Nat Nat "[Other] Thing") = exStE ∧
    S4.reduce "F" exCfgS4 exStS4 (@bareAction Nat Nat Nat Nat Nat "[Other] Thing") = exStS4 := by
  constructor
  · exact unmatched_action_passes_through.1 Nat Nat Nat Nat Nat Nat "F" exCfgE exStE
      (@bareAction Nat Nat Nat Nat Nat "[Other] Thing") (by decide)
  · exact unmatched_action_passes_through.2 Nat Nat Nat Nat Nat Nat "F" exCfgS4 exStS4
      (@bareAction Nat Nat Nat Nat Nat "[Other] Thing") (by decide)
      (by intro p hp; simp [exCfgS4] at hp)

/-- Counterexample to C4 as stated: in the keyed enhanced reducer, a
caller-supplied `onAddSuccess` that appends the item by spreading the
old sub-slice (the canonical callback shape from the repository's own
usage examples) produces, after `add` then `addSuccess`, the appended
`data` but an `isAdding` flag that is still TRUE: the callback's
root-level patch replaces the handler's sub-slice update wholesale. -/
theorem add_success_append_counterexample :
    ((Enh.reduce "F" exCfgC4
        (Enh.reduce "F" exCfgC4 exStC4 (@mkAdd (List Nat) Nat Nat Nat Nat "F" 9))
        (@mkAddSuccess (List Nat) Nat Nat Nat Nat "F" 2 none)).slice.data = some [1, 2]) ∧
    ((Enh.reduce "F" exCfgC4
        (Enh.reduce "F" exCfgC4 exStC4 (@mkAdd (List Nat) Nat Nat Nat Nat "F" 9))
        (@mkAddSuccess (List Nat) Nat Nat Nat Nat "F" 2 none)).slice.isAdding = true) := by
  decide

/-- C4 as amended.  In the flat generic reducer, with the repository's
canonical data-only appending callback, dispatching `add` and then
`addSuccess` with item `x` yields `data` equal to the prior collection
with `x` appended and the busy flag (`isLoading`, the flat variant's add
busy flag) false; in the keyed variant the callback's patch replaces
the whole sub-slice, so the busy flag after success is whatever the
patch carries. -/
theorem add_appends_with_flat_callback :
    ∀ (α Id P Q : Type) (f : String) (cfg : Gen.Config (List α) α Id)
      (s : AsyncState (List α)) (l : List α) (pl : P) (x : α) (msg : Option String),
      cfg.hasAdd = true → cfg.onAddSuccess = some onAddAppendFlat → s.data = some l →
      Gen.reduce f cfg (Gen.reduce f cfg s (@mkAdd (List α) α Id P Q f pl))
          (@mkAddSuccess (List α) α Id P Q f x msg) =
        ⟨some (l ++ [x]), false, none⟩ := by
  intro α Id P Q f cfg s l pl x msg hA hcb hdata
  rw [Gen_reduce_add f cfg s pl hA,
    Gen_reduce_addSuccess_append f cfg _ x msg hA hcb]
  simp [hdata]

/-- Witness for the amended C4 at concrete inputs. -/
theorem add_appends_with_flat_callback_witness :
    Gen.reduce "F" exCfgGen
        (Gen.reduce "F" exCfgGen ⟨some [1], false, none⟩ (@mkAdd (List Nat) Nat Nat Nat Nat "F" 9))
        (@mkAddSuccess (List Nat) Nat Nat Nat Nat "F" 2 none) =
      ⟨some [1, 2], false, none⟩ :=
  add_appends_with_flat_callback Nat Nat Nat Nat "F" exCfgGen ⟨some [1], false, none⟩
    [1] 9 2 none rfl rfl rfl

/-- Counterexample to C5 as stated: the state_4 reducer's reset handler
returns the configured initial composite state wholesale, not the prior
state with a freshly default-constructed sub-slice; at a config whose
initial state has data present and a different `other` field, the reset
result differs from what the claim prescribes (the sub-slice's data is
not absent and the non-slice field is not preserved). -/
theorem reset_restores_initial_counterexample :
    (S4.reduce "F" exCfgS4 exStS4 (@mkReset Nat Nat Nat Nat Nat "F") = exCfgS4.initialState) ∧
    (S4.reduce "F" exCfgS4 exStS4 (@mkReset Nat Nat Nat Nat Nat "F") ≠
      { exStS4 with slice := createAsyncState none }) := by
  decide

/-- C5 as amended.  In the enhanced keyed reducer, `reset` replaces the
sub-slice with the freshly default-constructed state (data absent,
error absent, all busy flags false) and leaves every other field of the
state unchanged; in the state_4 variant, `reset` instead returns the
configured initial composite state wholesale. -/
theorem reset_restores_default_slice :
    (∀ (T It Id P Q O : Type) (f : String) (cfg : Enh.Config T It Id O) (s : Enh.KState T O),
        cfg.hasReset = true →
      Enh.reduce f cfg s (@mkReset T It Id P Q f) =
        { s with slice := Enh.createDefaultState none }) ∧
    (∀ (T It Id P Q O : Type) (f : String) (cfg : S4.Config T It Id P Q O) (s : S4.KState T O),
        cfg.hasReset = true → (∀ p ∈ cfg.additional, p.1 ≠ mkType f sufReset) →
      S4.reduce f cfg s (@mkReset T It Id P Q f) = cfg.initialState) :=
  ⟨fun _ _ _ _ _ _ f cfg s h => Enh_reduce_reset f cfg s h,
   fun _ _ _ _ _ _ f cfg s h ha => S4_reduce_reset f cfg s h ha⟩

/-- Witness for the amended C5 at concrete inputs. -/
theorem reset_restores_default_slice_witness :
    (Enh.reduce "F" exCfgE exStE (@mkReset Nat Nat Nat Nat Nat "F") =
      { exStE with slice := Enh.createDefaultState none }) ∧
    (S4.reduce "F" exCfgS4 exStS4 (@mkReset Nat Nat Nat Nat Nat "F") = exCfgS4.initialState) :=
  ⟨reset_restores_default_slice.1 Nat Nat Nat Nat Nat Nat "F" exCfgE exStE rfl,
   reset_restores_default_slice.2 Nat Nat Nat Nat Nat Nat "F" exCfgS4 exStS4 rfl
     (by intro p hp; simp [exCfgS4] at hp)⟩

/-- Counterexample to C10 as stated: in the improved helper, a
caller-supplied function message resolver may return the empty string,
and the failure signal then carries error `""`, so the state's error
after reducing that failure is non-absent but EMPTY. -/
theorem empty_error_message_counterexample :
    (Imp.loadErrMsg emptyResolver ⟨some "boom"⟩ = "") ∧
    ((Enh.reduce "F" exCfgE exStE
        (@mkLoadFailure Nat Nat Nat Nat Nat "F"
          (Imp.loadErrMsg emptyResolver ⟨some "boom"⟩))).slice.error = some "") := by
  constructor
  · rfl
  · decide

/-- C10 as amended.  After a failure outcome signal the state's error is
always non-absent; with no caller-supplied message resolver the resolved
message is never empty and — whenever the service's error carries no
truthy message of its own — equals the hardcoded per-operation default
(`Load failed`, `Add failed`, `Update failed`, `Delete failed`); the
enhanced variant's static message config also never yields an empty
message; only a caller-supplied function resolver returning the empty
string can produce one. -/
theorem failure_message_defaults :
    (∀ e : JsError, e.message = none ∨ e.message = some "" →
      Imp.loadErrMsg none e = "Load failed" ∧ Imp.addErrMsg none e = "Add failed" ∧
      Imp.updateErrMsg none e = "Update failed" ∧ Imp.deleteErrMsg none e = "Delete failed" ∧
      jsOr e.message "Load failed" = "Load failed" ∧ Enh.loadErrMsgE none e = "Load failed") ∧
    (∀ e : JsError, Imp.loadErrMsg none e ≠ "" ∧ Imp.addErrMsg none e ≠ "" ∧
      Imp.updateErrMsg none e ≠ "" ∧ Imp.deleteErrMsg none e ≠ "") ∧
    (∀ (mc : Option String) (e : JsError), Enh.loadErrMsgE mc e ≠ "") ∧
    (∀ (T It Id P Q O : Type) (f : String) (cfg : Enh.Config T It Id O) (s : Enh.KState T O)
        (X : String), cfg.hasLoad = true →
      (Enh.reduce f cfg s (@mkLoadFailure T It Id P Q f X)).slice.error = some X) := by
  refine ⟨?_, ?_, ?_, ?_⟩
  · intro e h
    rcases h with h | h <;>
      simp [Imp.loadErrMsg, Imp.addErrMsg, Imp.updateErrMsg, Imp.deleteErrMsg,
        Imp.resolveMessage, Enh.loadErrMsgE, jsOr, h]
  · intro e
    exact ⟨jsOr_ne_empty (by decide), jsOr_ne_empty (by decide),
      jsOr_ne_empty (by decide), jsOr_ne_empty (by decide)⟩
  · intro mc e
    exact jsOr_ne_empty (jsOr_ne_empty (by decide))
  · intro T It Id P Q O f cfg s X hL
    rw [Enh_reduce_loadFailure f cfg s X hL]

/-- Witness for the amended C10 at concrete inputs. -/
theorem failure_message_defaults_witness :
    (Imp.loadErrMsg none ⟨none⟩ = "Load failed") ∧
    (Imp.loadErrMsg none ⟨some "boom"⟩ ≠ "") ∧
    (Enh.loadErrMsgE (some "") ⟨some ""⟩ ≠ "") ∧
    ((Enh.reduce "F" exCfgE exStE
        (@mkLoadFailure Nat Nat Nat Nat Nat "F" "boom")).slice.error = some "boom") :=
  ⟨(failure_message_defaults.1 ⟨none⟩ (Or.inl rfl)).1,
   (failure_message_defaults.2.1 ⟨some "boom"⟩).1,
   failure_message_defaults.2.2.1 (some "") ⟨some ""⟩,
   failure_message_defaults.2.2.2 Nat Nat Nat Nat Nat Nat "F" exCfgE exStE "boom" rfl⟩

end NgrxSpec
